import Mathlib

/-!
# Learning Intelligence Tool — shallow embedding

A shallow embedding of the data-processing-and-scoring core of the
Learning Intelligence Tool (files `app/preprocess.py` and `app/predict.py`),
together with theorems settling the frozen claims about it.

Modelling conventions:
* A pandas `DataFrame` is a list of column names plus a list of rows; each
  row is an association list from column name to cell `Value`.
* Machine floats are modelled as exact rationals (`ℚ`); `NaN` and the
  non-finite results of float division by zero are modelled by `Value.null`.
* Python exceptions are modelled with `Except PyError`; a function that can
  raise returns `Except PyError α`.
* The scikit-learn `RandomForestClassifier` trained in
  `LearningPredictor._create_dummy_model` is not embeddable; the class-1
  probability it produces is abstracted as an arbitrary function
  `Model : ℚ → ℚ → ℚ → ℚ` of the three feature values actually fed to
  `predict_proba` (time, score, chapter).  All theorems about the predictor
  quantify over this function.
* `predict` mutates its argument frame in place when the `chapter_order`
  column is absent (`df['chapter_order'] = 1` with no copy).  This state
  effect is made explicit: the embedded `predict` returns the post-call
  state of its argument frame alongside the prediction list.
  `engineer_features` starts with `df = df.copy()`, so it has no state
  effect on its argument and is embedded as a pure function.
-/

/-- A cell value: a number, a string, or null (NaN / unclassified / non-finite). -/
inductive Value where
  | num (q : ℚ)
  | str (s : String)
  | null
deriving DecidableEq

/-- A row of a frame: an association list from column name to value. -/
abbrev Row := List (String × Value)

/-- Look a column up in a row (first match), like `row['c']` / `row.get('c')`. -/
def getVal : Row → String → Option Value
  | [], _ => none
  | p :: rest, k => if p.1 = k then some p.2 else getVal rest k

/-- Look a column up and require a numeric value.  Missing columns, string
cells and null (NaN) cells all yield `none`: each of them makes the
scikit-learn scoring call raise. -/
def getNumVal (r : Row) (k : String) : Option ℚ :=
  match getVal r k with
  | some (Value.num q) => some q
  | _ => none

/-- Whether a row has a cell for the given column. -/
def hasKey : Row → String → Bool
  | [], _ => false
  | p :: rest, k => p.1 = k || hasKey rest k

/-- Overwrite every cell of the given column, keeping its position. -/
def replaceVal : Row → String → Value → Row
  | [], _, _ => []
  | p :: rest, k, v =>
      if p.1 = k then (k, v) :: replaceVal rest k v
      else p :: replaceVal rest k v

/-- Set a column of a row: overwrite in place when present, append when not
(the column-assignment semantics of `df['c'] = ...` restricted to one row). -/
def setVal (r : Row) (k : String) (v : Value) : Row :=
  if hasKey r k then replaceVal r k v else r ++ [(k, v)]

/-- A tabular batch: ordered column names and ordered rows. -/
structure DataFrame where
  columns : List String
  rows : List Row
deriving DecidableEq

/-- `df['k'] = v` for a constant `v`: add the column to every row. -/
def DataFrame.setColConst (df : DataFrame) (k : String) (v : Value) : DataFrame :=
  { columns := if k ∈ df.columns then df.columns else df.columns ++ [k],
    rows := df.rows.map (fun r => setVal r k v) }

/-! Column names used by the pipeline. -/

def colStudent : String := "student_id"
def colCourse : String := "course_id"
def colTime : String := "time_spent_min"
def colScore : String := "score_percent"
def colChapter : String := "chapter_order"
def colEngagement : String := "engagement_score"
def colRatio : String := "time_score_ratio"
def colPerf : String := "perf_level"
def colTimeLevel : String := "time_level"

/-- Python exceptions that the embedded core can raise. -/
inductive PyError where
  | valueError (msg : String)
  | typeError (msg : String)
  | keyError (key : String)
deriving DecidableEq

/-! ## `app/preprocess.py` — `LearnerDataProcessor` -/

/-- `REQUIRED_COLUMNS` of `LearnerDataProcessor`. -/
def REQUIRED_COLUMNS : List String := [colStudent, colCourse, colTime, colScore]

/-- `set(REQUIRED_COLUMNS) - set(df.columns)`, kept in the declared order of
`REQUIRED_COLUMNS` (the Python set has no specified order; only membership
is observable through the claims). -/
def missingColumns (df : DataFrame) : List String :=
  REQUIRED_COLUMNS.filter (fun c => ¬ c ∈ df.columns)

/-- `LearnerDataProcessor.validate_input`: raise on missing required columns,
then raise on an empty frame, otherwise succeed (the Python `return True`
carries no information, hence `Unit`). -/
def validate_input (df : DataFrame) : Except PyError Unit :=
  if missingColumns df ≠ [] then
    Except.error (PyError.valueError ("Missing columns: " ++
      String.intercalate (", ") (missingColumns df)))
  else if df.rows = [] then
    Except.error (PyError.valueError ("Empty dataframe provided"))
  else Except.ok ()

/-- `pd.cut(score_percent, bins=[0, 40, 70, 100], labels=['low', 'medium', 'high'])`
on one cell: right-closed intervals, out-of-range values unclassified (NaN). -/
def perfLevel (s : ℚ) : Value :=
  if 0 < s ∧ s ≤ 40 then Value.str ("low")
  else if 40 < s ∧ s ≤ 70 then Value.str ("medium")
  else if 70 < s ∧ s ≤ 100 then Value.str ("high")
  else Value.null

/-- `pd.cut(time_spent_min, bins=[0, 30, 60, np.inf], labels=['low', 'medium', 'high'])`
on one cell. -/
def timeLevel (t : ℚ) : Value :=
  if 0 < t ∧ t ≤ 30 then Value.str ("low")
  else if 30 < t ∧ t ≤ 60 then Value.str ("medium")
  else if 60 < t then Value.str ("high")
  else Value.null

/-- One row of `LearnerDataProcessor.engineer_features`: add the four derived
columns.  A non-numeric `time_spent_min` or `score_percent` cell makes the
vectorised pandas arithmetic raise `TypeError`.  Float division by zero in
`time_score_ratio` (score_percent = −1) produces a non-finite value,
modelled as `Value.null`. -/
def engineerRow (r : Row) : Except PyError Row :=
  match getNumVal r colTime, getNumVal r colScore with
  | some t, some s =>
      Except.ok
        (setVal (setVal (setVal (setVal r
          colEngagement (Value.num ((t / 60) * (s / 100))))
          colRatio (if s + 1 = 0 then Value.null else Value.num (t / (s + 1))))
          colPerf (perfLevel s))
          colTimeLevel (timeLevel t))
  | _, _ => Except.error (PyError.typeError ("unsupported operand type(s)"))

/-- Apply `engineerRow` to every row, failing at the first failure (the
column-wise pandas expression fails as soon as any cell is non-numeric). -/
def engineerRows : List Row → Except PyError (List Row)
  | [] => Except.ok []
  | r :: rest =>
      match engineerRow r with
      | Except.error e => Except.error e
      | Except.ok r' =>
          match engineerRows rest with
          | Except.error e => Except.error e
          | Except.ok rest' => Except.ok (r' :: rest')

/-- Append a column name unless already present (pandas column assignment
keeps the position of an existing column). -/
def addColName (cols : List String) (k : String) : List String :=
  if k ∈ cols then cols else cols ++ [k]

/-- Column list after `engineer_features`. -/
def newCols (cols : List String) : List String :=
  addColName (addColName (addColName (addColName cols
    colEngagement) colRatio) colPerf) colTimeLevel

/-- `LearnerDataProcessor.engineer_features`.  The source begins with
`df = df.copy()`, so the argument frame is never modified; the embedding is
therefore a pure function of the input frame. -/
def engineer_features (df : DataFrame) : Except PyError DataFrame :=
  match engineerRows df.rows with
  | Except.error e => Except.error e
  | Except.ok rs => Except.ok { columns := newCols df.columns, rows := rs }

/-- `LearnerDataProcessor.process`: validate, engineer, then report the
feature-column list, appending `chapter_order` exactly when that column is
present in the augmented frame. -/
def process (df : DataFrame) : Except PyError (DataFrame × List String) :=
  match validate_input df with
  | Except.error e => Except.error e
  | Except.ok _ =>
    match engineer_features df with
    | Except.error e => Except.error e
    | Except.ok dfp =>
        Except.ok (dfp,
          if colChapter ∈ dfp.columns then
            [colTime, colScore, colEngagement, colRatio] ++ [colChapter]
          else [colTime, colScore, colEngagement, colRatio])

/-! ## `app/predict.py` — `LearningPredictor` -/

/-- Abstraction of `self.completion_model.predict_proba(X)[0][1]`: the class-1
probability the trained classifier assigns to the feature vector
`[time_spent_min, score_percent, chapter_order]`. -/
abbrev Model := ℚ → ℚ → ℚ → ℚ

/-- The risk bucket computed in `LearningPredictor.predict` from the
unrounded completion probability. -/
def riskLevel (p : ℚ) : String :=
  if p < 3 / 10 then "HIGH"
  else if p < 6 / 10 then "MEDIUM"
  else "LOW"

/-- `1 if completion_prob >= 0.5 else 0`. -/
def predictedCompletion (p : ℚ) : ℕ :=
  if p ≥ 1 / 2 then 1 else 0

/-- Round to the nearest integer, ties to the nearest even integer —
the rounding used by Python's builtin `round`. -/
def roundHalfEven (q : ℚ) : ℤ :=
  let n : ℤ := Int.floor q
  if q - (n : ℚ) < 1 / 2 then n
  else if 1 / 2 < q - (n : ℚ) then n + 1
  else if n % 2 = 0 then n else n + 1

/-- Python's `round(q, 3)` on an exact value. -/
def pyRound3 (q : ℚ) : ℚ :=
  (roundHalfEven (q * 1000) : ℚ) / 1000

/-- One per-row Prediction Result: either the success dict
`{student_id, completion_probability, risk_level, predicted_completion}`
or the error dict `{student_id, error}`. -/
inductive PredResult where
  | ok (student_id : Value) (completion_probability : ℚ)
       (risk_level : String) (predicted_completion : ℕ)
  | err (student_id : Value) (error : String)
deriving DecidableEq

/-- `p.get('risk_level')`: present only on success dicts. -/
def PredResult.getRisk : PredResult → Option String
  | PredResult.ok _ _ r _ => some r
  | PredResult.err _ _ => none

/-- `p['student_id']`: present on both kinds of dict. -/
def PredResult.getStudentId : PredResult → Value
  | PredResult.ok sid _ _ _ => sid
  | PredResult.err sid _ => sid

/-- `p['completion_probability']`: a `KeyError` on an error dict. -/
def PredResult.getProb : PredResult → Except PyError ℚ
  | PredResult.ok _ p _ _ => Except.ok p
  | PredResult.err _ _ => Except.error (PyError.keyError ("completion_probability"))

/-- The stored completion probability of a success dict (junk `0` on an
error dict; only used under an all-success hypothesis). -/
def PredResult.probOr0 : PredResult → ℚ
  | PredResult.ok _ p _ _ => p
  | PredResult.err _ _ => 0

/-- Whether a Prediction Result is a success dict. -/
def PredResult.isSucc : PredResult → Bool
  | PredResult.ok _ _ _ _ => true
  | PredResult.err _ _ => false

/-- `row.get('student_id', f'S{idx}')`. -/
def studentIdOf (idx : ℕ) (r : Row) : Value :=
  match getVal r colStudent with
  | some v => v
  | none => Value.str ("S" ++ toString idx)

/-- `row.get('chapter_order', 1)`, then conversion to a float for the feature
vector: a missing key defaults to `1`; a present non-numeric or NaN value
makes the scoring call raise. -/
def chapterOrderOf (r : Row) : Option ℚ :=
  match getVal r colChapter with
  | none => some 1
  | some (Value.num c) => some c
  | some _ => none

/-- The body of the per-row `try` block of `LearningPredictor.predict`:
score one row, catching any failure as an error dict for that row alone.
Scoring fails exactly when one of the three feature cells cannot be turned
into a number (missing `time_spent_min`/`score_percent` key, string cell, or
NaN cell).  The success dict stores the probability rounded to 3 decimals
while `risk_level` and `predicted_completion` are derived from the unrounded
probability. -/
def scoreRow (model : Model) (idx : ℕ) (r : Row) : PredResult :=
  match getNumVal r colTime, getNumVal r colScore, chapterOrderOf r with
  | some t, some s, some c =>
      PredResult.ok (studentIdOf idx r)
        (pyRound3 (model t s c))
        (riskLevel (model t s c))
        (predictedCompletion (model t s c))
  | _, _, _ => PredResult.err (studentIdOf idx r) ("could not convert value to float")

/-- The state of the frame handed to `LearningPredictor.predict` right after
`if 'chapter_order' not in df.columns: df['chapter_order'] = 1`: the in-place
default assignment is the only write `predict` ever performs on it. -/
def postFrame (df : DataFrame) : DataFrame :=
  if colChapter ∈ df.columns then df
  else df.setColConst colChapter (Value.num 1)

/-- `LearningPredictor.predict`.  The first component of the result is the
post-call state of the argument frame: the source assigns
`df['chapter_order'] = 1` in place (no copy) when that column is absent.
The second component is the ordered list of Prediction Results, one per row,
produced by the total per-row loop (the loop body never lets an exception
escape).  The `features` argument is never read by the body. -/
def predict (model : Model) (df : DataFrame) (features : List String) :
    DataFrame × List PredResult :=
  (postFrame df, (postFrame df).rows.enum.map (fun p => scoreRow model p.1 p.2))

/-- `p.get('risk_level') == 'HIGH'`. -/
def isHighRisk (p : PredResult) : Bool :=
  p.getRisk == some ("HIGH")

/-- `np.mean` of a list: NaN (`none`) on the empty list, else the exact mean. -/
def npMean (l : List ℚ) : Option ℚ :=
  if l = [] then none else some (l.sum / l.length)

/-- The list comprehension `[p['completion_probability'] for p in predictions]`:
raises `KeyError` at the first error dict. -/
def collectProbs : List PredResult → Except PyError (List ℚ)
  | [] => Except.ok []
  | p :: rest =>
      match p.getProb with
      | Except.error e => Except.error e
      | Except.ok q =>
          match collectProbs rest with
          | Except.error e => Except.error e
          | Except.ok qs => Except.ok (q :: qs)

/-- The Insights Summary dict built by `generate_insights`.
`average_completion_probability` is `none` when `np.mean` of the empty list
produced NaN. -/
structure Insights where
  high_risk_students : List Value
  high_risk_count : ℕ
  total_students : ℕ
  key_completion_factors : List String
  difficult_chapters : List String
  average_completion_probability : Option ℚ
  recommendations : String
deriving DecidableEq

/-- `LearningPredictor.generate_insights`.  Building the result dict
evaluates the probability comprehension, so an error dict anywhere in
`predictions` makes the whole call raise `KeyError`. -/
def generate_insights (df : DataFrame) (predictions : List PredResult) :
    Except PyError Insights :=
  let high_risk := predictions.filter isHighRisk
  match collectProbs predictions with
  | Except.error e => Except.error e
  | Except.ok probs =>
      Except.ok
        { high_risk_students := high_risk.map PredResult.getStudentId,
          high_risk_count := high_risk.length,
          total_students := df.rows.length,
          key_completion_factors := [colTime, colScore],
          difficult_chapters := [],
          average_completion_probability := (npMean probs).map pyRound3,
          recommendations :=
            "Focus on high-risk students with personalized intervention" }

/-! ## Concrete sample data used by witnesses and counterexamples -/

/-- A constant stub classifier. -/
def model0 : Model := fun _ _ _ => 1 / 2

/-- A stub classifier whose probability lies in `[0.5995, 0.6)`. -/
def model10 : Model := fun _ _ _ => 5996 / 10000

/-- A stub classifier used by the C5 witness. -/
def model5 : Model := fun _ _ _ => 2 / 5

/-- A well-formed input row. -/
def rowOf (sid : String) (t s : ℚ) : Row :=
  [(colStudent, Value.str sid), (colCourse, Value.str ("c0")),
   (colTime, Value.num t), (colScore, Value.num s)]

/-- A frame with exactly the required columns. -/
def dfFull (rs : List Row) : DataFrame :=
  { columns := REQUIRED_COLUMNS, rows := rs }

def df3a : DataFrame := { columns := [colStudent, colCourse], rows := [] }
def df3b : DataFrame := { columns := REQUIRED_COLUMNS, rows := [] }
def df3c : DataFrame := dfFull [rowOf ("a1") 45 75]

def df4a : DataFrame :=
  { columns := REQUIRED_COLUMNS ++ [colChapter],
    rows := [rowOf ("b1") 45 75 ++ [(colChapter, Value.num 2)]] }
def df4b : DataFrame := dfFull [rowOf ("b2") 45 75]
def df4x : DataFrame := dfFull [rowOf ("b3") 15 42]

def dfW : DataFrame := dfFull [rowOf ("w0") 45 75]

def predsC1w : List PredResult := [PredResult.ok (Value.str ("w1")) (1 / 2) ("MEDIUM") 1]
def predsC1e : List PredResult :=
  [PredResult.ok (Value.str ("w1")) (1 / 2) ("MEDIUM") 1,
   PredResult.err (Value.str ("w2")) ("boom")]
def predsC1x : List PredResult := [PredResult.err (Value.str ("e1")) ("boom")]

def predsC6w : List PredResult :=
  [PredResult.ok (Value.str ("s1")) (1 / 10) ("HIGH") 0,
   PredResult.ok (Value.str ("s2")) (8 / 10) ("LOW") 1,
   PredResult.ok (Value.str ("s3")) (2 / 10) ("HIGH") 0]
def predsC6x : List PredResult :=
  [PredResult.ok (Value.str ("s4")) (1 / 10) ("HIGH") 0,
   PredResult.err (Value.str ("s5")) ("bad value")]

def df7 : DataFrame := dfFull [rowOf ("f1") 60 100]
def df8 : DataFrame := dfFull [rowOf ("g1") 45 75]

/-- The row `engineerRow` produces on `rowOf sid t s` (for `s + 1 ≠ 0`). -/
def augRow (sid : String) (t s : ℚ) : Row :=
  setVal (setVal (setVal (setVal (rowOf sid t s)
    colEngagement (Value.num ((t / 60) * (s / 100))))
    colRatio (Value.num (t / (s + 1))))
    colPerf (perfLevel s))
    colTimeLevel (timeLevel t)

/-- The augmented frame `engineer_features` produces on `df7`. -/
def dfp7 : DataFrame :=
  { columns := newCols REQUIRED_COLUMNS, rows := [augRow ("f1") 60 100] }

/-- The augmented frame `engineer_features` produces on `df8`. -/
def dfp8 : DataFrame :=
  { columns := newCols REQUIRED_COLUMNS, rows := [augRow ("g1") 45 75] }

def row5 : Row := rowOf ("h1") 15 42
def row10 : Row := rowOf ("w10") 45 75

/-! ## Helper lemmas -/

theorem getVal_replaceVal_self (k : String) (v : Value) :
    ∀ r : Row, hasKey r k = true → getVal (replaceVal r k v) k = some v := by
  intro r
  induction r with
  | nil => intro h; simp [hasKey] at h
  | cons p rest ih =>
    intro h
    by_cases hp : p.1 = k
    · simp [replaceVal, hp, getVal]
    · simp only [hasKey, Bool.or_eq_true, decide_eq_true_eq] at h
      rcases h with h | h
      · exact absurd h hp
      · simp only [replaceVal, if_neg hp, getVal, if_neg hp]
        exact ih h

theorem getVal_append_self (k : String) (v : Value) :
    ∀ r : Row, hasKey r k = false → getVal (r ++ [(k, v)]) k = some v := by
  intro r
  induction r with
  | nil => intro _; simp [getVal]
  | cons p rest ih =>
    intro h
    simp only [hasKey, Bool.or_eq_false_iff, decide_eq_false_iff_not] at h
    simp only [List.cons_append, getVal, if_neg h.1]
    exact ih h.2

theorem getVal_setVal_self (r : Row) (k : String) (v : Value) :
    getVal (setVal r k v) k = some v := by
  unfold setVal
  by_cases h : hasKey r k
  · rw [if_pos h]; exact getVal_replaceVal_self k v r h
  · rw [if_neg h]
    exact getVal_append_self k v r (by simpa using h)

theorem getVal_replaceVal_ne (k k' : String) (v : Value) (hne : k' ≠ k) :
    ∀ r : Row, getVal (replaceVal r k v) k' = getVal r k' := by
  intro r
  induction r with
  | nil => rfl
  | cons p rest ih =>
    by_cases hp : p.1 = k
    · have hk : ¬ k = k' := fun h => hne h.symm
      have hp' : ¬ p.1 = k' := by rw [hp]; exact hk
      simp only [replaceVal, if_pos hp, getVal, if_neg hk, if_neg hp']
      exact ih
    · simp only [replaceVal, if_neg hp, getVal]
      by_cases hp' : p.1 = k'
      · rw [if_pos hp', if_pos hp']
      · rw [if_neg hp', if_neg hp']
        exact ih

theorem getVal_append_ne (k k' : String) (v : Value) (hne : k' ≠ k) :
    ∀ r : Row, getVal (r ++ [(k, v)]) k' = getVal r k' := by
  intro r
  induction r with
  | nil =>
    have hk : ¬ k = k' := fun h => hne h.symm
    simp [getVal, if_neg hk]
  | cons p rest ih =>
    simp only [List.cons_append, getVal]
    by_cases hp : p.1 = k'
    · rw [if_pos hp, if_pos hp]
    · rw [if_neg hp, if_neg hp]
      exact ih

theorem getVal_setVal_ne (r : Row) (k k' : String) (v : Value) (hne : k' ≠ k) :
    getVal (setVal r k v) k' = getVal r k' := by
  unfold setVal
  by_cases h : hasKey r k
  · rw [if_pos h]; exact getVal_replaceVal_ne k k' v hne r
  · rw [if_neg h]; exact getVal_append_ne k k' v hne r

theorem engineerRows_spec :
    ∀ (l l' : List Row), engineerRows l = Except.ok l' →
      l'.length = l.length ∧
      ∀ i (h : i < l.length) (h' : i < l'.length),
        engineerRow (l.get ⟨i, h⟩) = Except.ok (l'.get ⟨i, h'⟩) := by
  intro l
  induction l with
  | nil =>
    intro l' h
    simp only [engineerRows] at h
    cases h
    exact ⟨rfl, fun i hi _ => absurd hi (Nat.not_lt_zero i)⟩
  | cons r rest ih =>
    intro l' h
    simp only [engineerRows] at h
    cases hr : engineerRow r with
    | error e => rw [hr] at h; cases h
    | ok r0 =>
      rw [hr] at h
      cases hrest : engineerRows rest with
      | error e => rw [hrest] at h; cases h
      | ok rest0 =>
        rw [hrest] at h
        cases h
        obtain ⟨hlen, hget⟩ := ih rest0 hrest
        refine ⟨by simp [hlen], ?_⟩
        intro i hi hi'
        cases i with
        | zero => simpa using hr
        | succ j =>
          simp only [List.get]
          exact hget j (Nat.lt_of_succ_lt_succ hi) (Nat.lt_of_succ_lt_succ hi')

theorem collectProbs_all_succ :
    ∀ preds : List PredResult, (∀ r ∈ preds, r.isSucc = true) →
      collectProbs preds = Except.ok (preds.map PredResult.probOr0) := by
  intro preds
  induction preds with
  | nil => intro _; rfl
  | cons p rest ih =>
    intro h
    have hp := h p (List.mem_cons_self p rest)
    have hrest := ih (fun r hr => h r (List.mem_cons_of_mem p hr))
    cases p with
    | ok sid q rl pc =>
      simp only [collectProbs, PredResult.getProb, hrest, List.map]
      rfl
    | err sid e => simp [PredResult.isSucc] at hp

theorem collectProbs_has_err :
    ∀ preds : List PredResult, (∃ r ∈ preds, r.isSucc = false) →
      collectProbs preds = Except.error (PyError.keyError ("completion_probability")) := by
  intro preds
  induction preds with
  | nil => rintro ⟨r, hr, _⟩; cases hr
  | cons p rest ih =>
    rintro ⟨r, hr, hfail⟩
    cases p with
    | err sid e => rfl
    | ok sid q rl pc =>
      rcases List.mem_cons.mp hr with rfl | hr'
      · simp [PredResult.isSucc] at hfail
      · simp only [collectProbs, PredResult.getProb]
        rw [ih ⟨r, hr', hfail⟩]

theorem pyRound3_of_between (p : ℚ) (h1 : 5995 / 10000 ≤ p) (h2 : p < 6 / 10) :
    pyRound3 p = 3 / 5 := by
  have hq1 : (1199 : ℚ) / 2 ≤ p * 1000 := by linarith
  have hq2 : p * 1000 < 600 := by linarith
  have hfloor : Int.floor (p * 1000) = 599 := by
    rw [Int.floor_eq_iff]
    constructor
    · push_cast; linarith
    · push_cast; linarith
  unfold pyRound3 roundHalfEven
  rw [hfloor]
  by_cases hhalf : p * 1000 - ((599 : ℤ) : ℚ) < 1 / 2
  · exfalso
    push_cast at hhalf
    linarith
  · rw [if_neg hhalf]
    by_cases hgt : (1 : ℚ) / 2 < p * 1000 - ((599 : ℤ) : ℚ)
    · rw [if_pos hgt]; norm_num
    · rw [if_neg hgt]
      norm_num

theorem perfLevel_low (s : ℚ) (h0 : 0 < s) (h40 : s ≤ 40) :
    perfLevel s = Value.str ("low") := by
  simp only [perfLevel]
  rw [if_pos ⟨h0, h40⟩]

theorem perfLevel_medium (s : ℚ) (h1 : 40 < s) (h2 : s ≤ 70) :
    perfLevel s = Value.str ("medium") := by
  have hn : ¬ (0 < s ∧ s ≤ 40) := by rintro ⟨_, h⟩; linarith
  simp only [perfLevel]
  rw [if_neg hn, if_pos ⟨h1, h2⟩]

theorem perfLevel_high (s : ℚ) (h1 : 70 < s) (h2 : s ≤ 100) :
    perfLevel s = Value.str ("high") := by
  have hn1 : ¬ (0 < s ∧ s ≤ 40) := by rintro ⟨_, h⟩; linarith
  have hn2 : ¬ (40 < s ∧ s ≤ 70) := by rintro ⟨_, h⟩; linarith
  simp only [perfLevel]
  rw [if_neg hn1, if_neg hn2, if_pos ⟨h1, h2⟩]

theorem perfLevel_unclassified (s : ℚ) (h : ¬ (0 < s ∧ s ≤ 100)) :
    perfLevel s = Value.null := by
  have hn1 : ¬ (0 < s ∧ s ≤ 40) := by rintro ⟨h0, h40⟩; exact h ⟨h0, by linarith⟩
  have hn2 : ¬ (40 < s ∧ s ≤ 70) := by rintro ⟨h40, h70⟩; exact h ⟨by linarith, by linarith⟩
  have hn3 : ¬ (70 < s ∧ s ≤ 100) := by rintro ⟨h70, h100⟩; exact h ⟨by linarith, h100⟩
  simp only [perfLevel]
  rw [if_neg hn1, if_neg hn2, if_neg hn3]

theorem timeLevel_low (t : ℚ) (h0 : 0 < t) (h30 : t ≤ 30) :
    timeLevel t = Value.str ("low") := by
  simp only [timeLevel]
  rw [if_pos ⟨h0, h30⟩]

theorem timeLevel_medium (t : ℚ) (h1 : 30 < t) (h2 : t ≤ 60) :
    timeLevel t = Value.str ("medium") := by
  have hn : ¬ (0 < t ∧ t ≤ 30) := by rintro ⟨_, h⟩; linarith
  simp only [timeLevel]
  rw [if_neg hn, if_pos ⟨h1, h2⟩]

theorem timeLevel_high (t : ℚ) (h : 60 < t) :
    timeLevel t = Value.str ("high") := by
  have hn1 : ¬ (0 < t ∧ t ≤ 30) := by rintro ⟨_, h'⟩; linarith
  have hn2 : ¬ (30 < t ∧ t ≤ 60) := by rintro ⟨_, h'⟩; linarith
  simp only [timeLevel]
  rw [if_neg hn1, if_neg hn2, if_pos h]

theorem timeLevel_unclassified (t : ℚ) (h : t ≤ 0) :
    timeLevel t = Value.null := by
  have hn1 : ¬ (0 < t ∧ t ≤ 30) := by rintro ⟨h0, _⟩; linarith
  have hn2 : ¬ (30 < t ∧ t ≤ 60) := by rintro ⟨h30, _⟩; linarith
  have hn3 : ¬ (60 < t) := by linarith
  simp only [timeLevel]
  rw [if_neg hn1, if_neg hn2, if_neg hn3]

theorem engineerRow_eq_if (r : Row) (t s : ℚ)
    (ht : getNumVal r colTime = some t) (hs : getNumVal r colScore = some s) :
    engineerRow r = Except.ok (setVal (setVal (setVal (setVal r
      colEngagement (Value.num ((t / 60) * (s / 100))))
      colRatio (if s + 1 = 0 then Value.null else Value.num (t / (s + 1))))
      colPerf (perfLevel s))
      colTimeLevel (timeLevel t)) := by
  unfold engineerRow
  rw [ht, hs]

theorem engineerRow_eq (r : Row) (t s : ℚ)
    (ht : getNumVal r colTime = some t) (hs : getNumVal r colScore = some s)
    (hs1 : s + 1 ≠ 0) :
    engineerRow r = Except.ok (setVal (setVal (setVal (setVal r
      colEngagement (Value.num ((t / 60) * (s / 100))))
      colRatio (Value.num (t / (s + 1))))
      colPerf (perfLevel s))
      colTimeLevel (timeLevel t)) := by
  rw [engineerRow_eq_if r t s ht hs, if_neg hs1]

theorem engineer_features_df7 : engineer_features df7 = Except.ok dfp7 := by
  have h1 : engineerRow (rowOf ("f1") 60 100) = Except.ok (augRow ("f1") 60 100) := by
    unfold augRow
    exact engineerRow_eq _ 60 100 (by decide) (by decide) (by norm_num)
  have h2 : engineerRows [rowOf ("f1") 60 100] = Except.ok [augRow ("f1") 60 100] := by
    simp only [engineerRows, h1]
  simp only [engineer_features, df7, dfFull]
  rw [h2]
  rfl

theorem engineer_features_df8 : engineer_features df8 = Except.ok dfp8 := by
  have h1 : engineerRow (rowOf ("g1") 45 75) = Except.ok (augRow ("g1") 45 75) := by
    unfold augRow
    exact engineerRow_eq _ 45 75 (by decide) (by decide) (by norm_num)
  have h2 : engineerRows [rowOf ("g1") 45 75] = Except.ok [augRow ("g1") 45 75] := by
    simp only [engineerRows, h1]
  simp only [engineer_features, df8, dfFull]
  rw [h2]
  rfl

/-! ## Claim theorems -/

/-- C3: `validate_input` fails with a `ValueError` naming the missing
required columns whenever any of {student_id, course_id, time_spent_min,
score_percent} is absent (this check runs first), fails with the
"Empty dataframe provided" error for a batch with zero rows, and otherwise
returns successfully — it is a pure check with no other output. -/
theorem validate_input_cases (df : DataFrame) :
    (missingColumns df ≠ [] →
       validate_input df = Except.error (PyError.valueError ("Missing columns: " ++
         String.intercalate (", ") (missingColumns df)))) ∧
    (missingColumns df = [] → df.rows = [] →
       validate_input df = Except.error (PyError.valueError ("Empty dataframe provided"))) ∧
    (missingColumns df = [] → df.rows ≠ [] →
       validate_input df = Except.ok ()) := by
  refine ⟨?_, ?_, ?_⟩
  · intro h
    rw [validate_input, if_pos h]
  · intro h1 h2
    rw [validate_input, if_neg (not_not_intro h1), if_pos h2]
  · intro h1 h2
    rw [validate_input, if_neg (not_not_intro h1), if_neg h2]

/-- Witness for C3: a frame missing two required columns, a frame with all
columns but no rows, and a complete one-row frame. -/
theorem validate_input_cases_witness :
    validate_input df3a = Except.error (PyError.valueError ("Missing columns: " ++
      String.intercalate (", ") (missingColumns df3a))) ∧
    validate_input df3b = Except.error (PyError.valueError ("Empty dataframe provided")) ∧
    validate_input df3c = Except.ok () :=
  ⟨(validate_input_cases df3a).1 (by decide),
   (validate_input_cases df3b).2.1 (by decide) rfl,
   (validate_input_cases df3c).2.2 (by decide) (by decide)⟩

/-- C9: `predict` never reads its `feature_names` argument — the classifier
is always fed exactly the three values time_spent_min, score_percent and
chapter_order — so its result (both the post-call frame state and the
prediction list) is identical for any two feature-name lists. -/
theorem predict_ignores_feature_names (model : Model) (df : DataFrame)
    (fs1 fs2 : List String) :
    predict model df fs1 = predict model df fs2 := rfl

/-- C5: the risk tier is the deterministic threshold function of the
unrounded completion probability (`<0.3` HIGH, `[0.3,0.6)` MEDIUM, `≥0.6`
LOW), `predicted_completion` is 1 exactly when the probability is `≥ 0.5`,
and every successfully scored row of `predict` carries exactly these
functions of the model probability. -/
theorem risk_threshold_buckets (p : ℚ) :
    (p < 3 / 10 → riskLevel p = "HIGH") ∧
    (3 / 10 ≤ p → p < 6 / 10 → riskLevel p = "MEDIUM") ∧
    (6 / 10 ≤ p → riskLevel p = "LOW") ∧
    (1 / 2 ≤ p → predictedCompletion p = 1) ∧
    (p < 1 / 2 → predictedCompletion p = 0) ∧
    (∀ (model : Model) (idx : ℕ) (r : Row) (t s c : ℚ),
       getNumVal r colTime = some t → getNumVal r colScore = some s →
       chapterOrderOf r = some c →
       scoreRow model idx r =
         PredResult.ok (studentIdOf idx r) (pyRound3 (model t s c))
           (riskLevel (model t s c)) (predictedCompletion (model t s c))) := by
  refine ⟨?_, ?_, ?_, ?_, ?_, ?_⟩
  · intro h
    rw [riskLevel, if_pos h]
  · intro h1 h2
    rw [riskLevel, if_neg (by linarith), if_pos h2]
  · intro h
    rw [riskLevel, if_neg (by linarith), if_neg (by linarith)]
  · intro h
    rw [predictedCompletion, if_pos h]
  · intro h
    rw [predictedCompletion, if_neg (by simpa using not_le.mpr h)]
  · intro model idx r t s c ht hs hc
    unfold scoreRow
    rw [ht, hs, hc]

/-- Witness for C5: each bucket hit at a concrete probability, plus a
concretely scored row. -/
theorem risk_threshold_buckets_witness :
    riskLevel (1 / 5) = "HIGH" ∧ riskLevel (2 / 5) = "MEDIUM" ∧
    riskLevel (7 / 10) = "LOW" ∧ predictedCompletion (7 / 10) = 1 ∧
    predictedCompletion (1 / 5) = 0 ∧
    scoreRow model5 1 row5 =
      PredResult.ok (studentIdOf 1 row5) (pyRound3 (model5 15 42 1))
        (riskLevel (model5 15 42 1)) (predictedCompletion (model5 15 42 1)) :=
  ⟨(risk_threshold_buckets (1 / 5)).1 (by norm_num),
   (risk_threshold_buckets (2 / 5)).2.1 (by norm_num) (by norm_num),
   (risk_threshold_buckets (7 / 10)).2.2.1 (by norm_num),
   (risk_threshold_buckets (7 / 10)).2.2.2.1 (by norm_num),
   (risk_threshold_buckets (1 / 5)).2.2.2.2.1 (by norm_num),
   (risk_threshold_buckets 0).2.2.2.2.2 model5 1 row5 15 42 1
     (by decide) (by decide) (by decide)⟩

/-- C2: `predict` is a total function returning exactly one Prediction
Result per input row in input order, and the i-th result is `scoreRow`
applied to the i-th row alone — a row whose scoring fails yields an error
entry for that row only (see `scoreRow`), leaving every other row's result
untouched. -/
theorem predict_per_row (model : Model) (df : DataFrame) (fs : List String) :
    ((predict model df fs).2).length = df.rows.length ∧
    ∀ i (h1 : i < ((predict model df fs).2).length)
        (h2 : i < ((predict model df fs).1).rows.length),
      ((predict model df fs).2).get ⟨i, h1⟩ =
        scoreRow model i (((predict model df fs).1).rows.get ⟨i, h2⟩) := by
  have hpost : (postFrame df).rows.length = df.rows.length := by
    unfold postFrame
    by_cases h : colChapter ∈ df.columns
    · rw [if_pos h]
    · rw [if_neg h]
      simp [DataFrame.setColConst]
  constructor
  · show ((postFrame df).rows.enum.map _).length = _
    rw [List.length_map, List.enum_length, hpost]
  · intro i h1 h2
    show ((postFrame df).rows.enum.map _).get ⟨i, h1⟩ = _
    rw [List.get_eq_getElem, List.get_eq_getElem, List.getElem_map, List.getElem_enum]
    rfl

/-- Witness for C2: on a one-row frame, `predict` returns one result and
its entry is `scoreRow` of the single row. -/
theorem predict_per_row_witness :
    ((predict model0 dfW []).2).length = dfW.rows.length ∧
    ((predict model0 dfW []).2).get ⟨0, by decide⟩ =
      scoreRow model0 0 (((predict model0 dfW []).1).rows.get ⟨0, by decide⟩) :=
  ⟨(predict_per_row model0 dfW []).1,
   (predict_per_row model0 dfW []).2 0 (by decide) (by decide)⟩

/-- C4 counterexample: on a frame without a `chapter_order` column, the
frame `predict` was given is no longer equal to its original value after
the call — `predict` mutates its input batch in place. -/
theorem predict_mutates_input_counterexample :
    (predict model0 df4x []).1 ≠ df4x := by decide

/-- C4 (amended): `engineer_features` copies its input frame first and never
modifies it (the embedding makes it a pure function for that reason), and
`predict` leaves the batch it is given unchanged exactly when a
`chapter_order` column is already present; when it is absent, `predict`
mutates the input batch by adding a `chapter_order` column set to 1. -/
theorem predict_input_state (model : Model) (df : DataFrame) (fs : List String) :
    (colChapter ∈ df.columns → (predict model df fs).1 = df) ∧
    (¬ colChapter ∈ df.columns →
       (predict model df fs).1 = df.setColConst colChapter (Value.num 1)) := by
  constructor
  · intro h
    show postFrame df = df
    rw [postFrame, if_pos h]
  · intro h
    show postFrame df = _
    rw [postFrame, if_neg h]

/-- Witness for C4: a frame that already has `chapter_order` is returned
unchanged; one without it comes back with the column added. -/
theorem predict_input_state_witness :
    (predict model0 df4a []).1 = df4a ∧
    (predict model0 df4b []).1 = df4b.setColConst colChapter (Value.num 1) :=
  ⟨(predict_input_state model0 df4a []).1 (by decide),
   (predict_input_state model0 df4b []).2 (by decide)⟩

/-- C10: risk and predicted completion are derived from the unrounded
probability while the reported `completion_probability` is rounded to 3
decimals, so any model probability in `[0.5995, 0.6)` produces a record
showing `completion_probability = 0.6` together with `risk_level = MEDIUM`,
even though the probability 0.6 itself maps to LOW. -/
theorem rounded_probability_risk_mismatch (model : Model) (idx : ℕ) (r : Row)
    (t s c : ℚ)
    (ht : getNumVal r colTime = some t) (hs : getNumVal r colScore = some s)
    (hc : chapterOrderOf r = some c)
    (h1 : 5995 / 10000 ≤ model t s c) (h2 : model t s c < 6 / 10) :
    scoreRow model idx r =
      PredResult.ok (studentIdOf idx r) (3 / 5) ("MEDIUM") 1 ∧
    riskLevel (3 / 5) = "LOW" := by
  constructor
  · have hred : scoreRow model idx r =
        PredResult.ok (studentIdOf idx r) (pyRound3 (model t s c))
          (riskLevel (model t s c)) (predictedCompletion (model t s c)) := by
      unfold scoreRow
      rw [ht, hs, hc]
    have hr3 : pyRound3 (model t s c) = 3 / 5 := pyRound3_of_between _ h1 h2
    have hrl : riskLevel (model t s c) = "MEDIUM" := by
      rw [riskLevel, if_neg (by linarith), if_pos h2]
    have hpc : predictedCompletion (model t s c) = 1 := by
      rw [predictedCompletion, if_pos (by linarith)]
    rw [hred, hr3, hrl, hpc]
  · rw [riskLevel, if_neg (by norm_num), if_neg (by norm_num)]

/-- Witness for C10: a stub model with probability 0.5996 yields the record
`(0.6, MEDIUM, 1)` although probability 0.6 itself is LOW. -/
theorem rounded_probability_risk_mismatch_witness :
    scoreRow model10 0 row10 =
      PredResult.ok (studentIdOf 0 row10) (3 / 5) ("MEDIUM") 1 ∧
    riskLevel (3 / 5) = "LOW" :=
  rounded_probability_risk_mismatch model10 0 row10 45 75 1
    (by decide) (by decide) (by decide) (by norm_num [model10])
    (by norm_num [model10])

/-- C1 counterexample: a prediction sequence containing an error entry makes
`generate_insights` raise `KeyError` — the comprehension
`[p['completion_probability'] for p in predictions]` does not skip error
entries, so the call crashes instead of returning an average. -/
theorem insights_error_entry_counterexample :
    generate_insights dfW predsC1x =
      Except.error (PyError.keyError ("completion_probability")) := rfl

/-- C1 (amended): when every prediction entry is a success,
`generate_insights` returns `average_completion_probability` equal to the
mean of all stored completion probabilities rounded to 3 decimals, and the
empty sequence yields an absent (NaN) average rather than a crash; but any
error entry in the sequence makes `generate_insights` raise
`KeyError('completion_probability')` instead of returning. -/
theorem insights_average_and_keyerror (df : DataFrame) (preds : List PredResult) :
    ((∀ r ∈ preds, r.isSucc = true) →
       ∃ ins, generate_insights df preds = Except.ok ins ∧
         ins.average_completion_probability =
           (npMean (preds.map PredResult.probOr0)).map pyRound3) ∧
    (preds = [] →
       ∃ ins, generate_insights df preds = Except.ok ins ∧
         ins.average_completion_probability = none) ∧
    ((∃ r ∈ preds, r.isSucc = false) →
       generate_insights df preds =
         Except.error (PyError.keyError ("completion_probability"))) := by
  refine ⟨?_, ?_, ?_⟩
  · intro h
    simp only [generate_insights]
    rw [collectProbs_all_succ preds h]
    exact ⟨_, rfl, rfl⟩
  · intro h
    subst h
    exact ⟨_, rfl, rfl⟩
  · intro h
    simp only [generate_insights]
    rw [collectProbs_has_err preds h]

/-- Witness for C1: an all-success sequence, the empty sequence, and a
sequence with one error entry. -/
theorem insights_average_and_keyerror_witness :
    (∃ ins, generate_insights dfW predsC1w = Except.ok ins ∧
       ins.average_completion_probability =
         (npMean (predsC1w.map PredResult.probOr0)).map pyRound3) ∧
    (∃ ins, generate_insights dfW ([] : List PredResult) = Except.ok ins ∧
       ins.average_completion_probability = none) ∧
    generate_insights dfW predsC1e =
      Except.error (PyError.keyError ("completion_probability")) :=
  ⟨(insights_average_and_keyerror dfW predsC1w).1 (by decide),
   (insights_average_and_keyerror dfW []).2.1 rfl,
   (insights_average_and_keyerror dfW predsC1e).2.2 (by decide)⟩

/-- C6 counterexample: on a sequence holding one HIGH success entry and one
error entry, `generate_insights` raises `KeyError` instead of returning the
high-risk ids — the claim's "for every prediction sequence" fails. -/
theorem insights_high_risk_counterexample :
    generate_insights dfW predsC6x =
      Except.error (PyError.keyError ("completion_probability")) := rfl

/-- C6 (amended): for every prediction sequence free of error entries,
`generate_insights` returns `high_risk_students` equal to the student ids of
exactly those predictions whose `risk_level` is HIGH, in the original order,
with `high_risk_count` its length and the average over all stored
probabilities rounded to 3 decimals (0.367 on the spec's example); a
sequence containing an error entry raises `KeyError` instead. -/
theorem insights_high_risk_filter (df : DataFrame) (preds : List PredResult)
    (h : ∀ r ∈ preds, r.isSucc = true) :
    ∃ ins, generate_insights df preds = Except.ok ins ∧
      ins.high_risk_students = (preds.filter isHighRisk).map PredResult.getStudentId ∧
      ins.high_risk_count = (preds.filter isHighRisk).length ∧
      ins.average_completion_probability =
        (npMean (preds.map PredResult.probOr0)).map pyRound3 := by
  simp only [generate_insights]
  rw [collectProbs_all_succ preds h]
  exact ⟨_, rfl, rfl, rfl, rfl⟩

/-- Witness for C6: the spec's example `[(HIGH, 0.1), (LOW, 0.8), (HIGH, 0.2)]`
yields the two HIGH ids in order, count 2 and average 0.367. -/
theorem insights_high_risk_filter_witness :
    ∃ ins, generate_insights dfW predsC6w = Except.ok ins ∧
      ins.high_risk_students = [Value.str ("s1"), Value.str ("s3")] ∧
      ins.high_risk_count = 2 ∧
      ins.average_completion_probability = some (367 / 1000) := by
  obtain ⟨ins, hg, h1, h2, h3⟩ := insights_high_risk_filter dfW predsC6w (by decide)
  refine ⟨ins, hg, ?_, ?_, ?_⟩
  · rw [h1]
    rfl
  · rw [h2]
    rfl
  · rw [h3]
    have hmap : predsC6w.map PredResult.probOr0 = [1 / 10, 8 / 10, 2 / 10] := rfl
    rw [hmap]
    have hmean : npMean [(1 : ℚ) / 10, 8 / 10, 2 / 10] = some (11 / 30) := by
      unfold npMean
      rw [if_neg (by simp)]
      norm_num [List.sum_cons, List.sum_nil]
    rw [hmean]
    have hround : pyRound3 (11 / 30) = 367 / 1000 := by
      have hf : Int.floor ((11 : ℚ) / 30 * 1000) = 366 := by
        norm_num [Int.floor_eq_iff]
      unfold pyRound3 roundHalfEven
      rw [hf]
      by_cases hlt : (11 : ℚ) / 30 * 1000 - ((366 : ℤ) : ℚ) < 1 / 2
      · exfalso
        push_cast at hlt
        norm_num at hlt
      · rw [if_neg hlt]
        by_cases hgt : (1 : ℚ) / 2 < 11 / 30 * 1000 - ((366 : ℤ) : ℚ)
        · rw [if_pos hgt]
          norm_num
        · exfalso
          push_cast at hgt
          norm_num at hgt
    show some (pyRound3 (11 / 30)) = some (367 / 1000)
    rw [hround]

/-- C7 counterexample: on the spec's own example row
(`time_spent_min = 60`, `score_percent = 100`) the augmented `time_level`
is "medium", not "high": 60 falls in the right-closed bucket (30, 60] of
`pd.cut(..., bins=[0, 30, 60, inf])`. -/
theorem engineer_features_time_level_counterexample :
    engineer_features df7 = Except.ok dfp7 ∧
    dfp7.rows.map (fun r => getVal r colTimeLevel) =
      [some (Value.str ("medium"))] ∧
    Value.str ("medium") ≠ Value.str ("high") := by
  refine ⟨engineer_features_df7, ?_, by decide⟩
  show [getVal (augRow ("f1") 60 100) colTimeLevel] = _
  unfold augRow
  rw [getVal_setVal_self, timeLevel_medium 60 (by norm_num) (by norm_num)]

/-- C7 (amended): `engineer_features` adds per row exactly the derived
columns `engagement_score = (time/60)·(score/100)` and
`time_score_ratio = time/(score+1)` (for `score + 1 ≠ 0`), plus
`perf_level` bucketed by (0,40], (40,70], (70,100] and `time_level`
bucketed by (0,30], (30,60], (60,∞), out-of-range values left
unclassified; for `time = 60, score = 100` this gives
`engagement_score = 1.0`, `time_score_ratio = 60/101`,
`perf_level = high` and `time_level = medium` (not "high": 60 lies in the
right-closed (30,60] bucket). -/
theorem engineer_features_row_values (df dfp : DataFrame)
    (h : engineer_features df = Except.ok dfp)
    (i : ℕ) (hi : i < df.rows.length) (t s : ℚ)
    (ht : getNumVal (df.rows.get ⟨i, hi⟩) colTime = some t)
    (hs : getNumVal (df.rows.get ⟨i, hi⟩) colScore = some s) :
    dfp.columns = newCols df.columns ∧
    ∃ hi' : i < dfp.rows.length,
      (getVal (dfp.rows.get ⟨i, hi'⟩) colEngagement =
         some (Value.num ((t / 60) * (s / 100)))) ∧
      (s + 1 ≠ 0 → getVal (dfp.rows.get ⟨i, hi'⟩) colRatio =
         some (Value.num (t / (s + 1)))) ∧
      (getVal (dfp.rows.get ⟨i, hi'⟩) colPerf = some (perfLevel s)) ∧
      (getVal (dfp.rows.get ⟨i, hi'⟩) colTimeLevel = some (timeLevel t)) ∧
      (0 < s → s ≤ 40 → perfLevel s = Value.str ("low")) ∧
      (40 < s → s ≤ 70 → perfLevel s = Value.str ("medium")) ∧
      (70 < s → s ≤ 100 → perfLevel s = Value.str ("high")) ∧
      (¬ (0 < s ∧ s ≤ 100) → perfLevel s = Value.null) ∧
      (0 < t → t ≤ 30 → timeLevel t = Value.str ("low")) ∧
      (30 < t → t ≤ 60 → timeLevel t = Value.str ("medium")) ∧
      (60 < t → timeLevel t = Value.str ("high")) ∧
      (t ≤ 0 → timeLevel t = Value.null) := by
  cases hE : engineerRows df.rows with
  | error e =>
    unfold engineer_features at h
    rw [hE] at h
    cases h
  | ok rs =>
    unfold engineer_features at h
    rw [hE] at h
    have hdf : ({ columns := newCols df.columns, rows := rs } : DataFrame) = dfp :=
      Except.ok.inj h
    obtain ⟨hlen, hget⟩ := engineerRows_spec df.rows rs hE
    subst hdf
    refine ⟨rfl, ?_⟩
    have hi' : i < rs.length := by rw [hlen]; exact hi
    have her := hget i hi hi'
    rw [engineerRow_eq_if _ t s ht hs] at her
    have hrow := Except.ok.inj her
    refine ⟨hi', ?_, ?_, ?_, ?_,
      fun h0 h40 => perfLevel_low s h0 h40,
      fun h1 h2 => perfLevel_medium s h1 h2,
      fun h1 h2 => perfLevel_high s h1 h2,
      fun hh => perfLevel_unclassified s hh,
      fun h0 h30 => timeLevel_low t h0 h30,
      fun h1 h2 => timeLevel_medium t h1 h2,
      fun hh => timeLevel_high t hh,
      fun hh => timeLevel_unclassified t hh⟩
    · show getVal (rs.get ⟨i, hi'⟩) colEngagement = _
      rw [← hrow,
        getVal_setVal_ne _ colTimeLevel colEngagement _ (by decide),
        getVal_setVal_ne _ colPerf colEngagement _ (by decide),
        getVal_setVal_ne _ colRatio colEngagement _ (by decide),
        getVal_setVal_self]
    · intro hs1
      show getVal (rs.get ⟨i, hi'⟩) colRatio = _
      rw [← hrow,
        getVal_setVal_ne _ colTimeLevel colRatio _ (by decide),
        getVal_setVal_ne _ colPerf colRatio _ (by decide),
        getVal_setVal_self, if_neg hs1]
    · show getVal (rs.get ⟨i, hi'⟩) colPerf = _
      rw [← hrow,
        getVal_setVal_ne _ colTimeLevel colPerf _ (by decide),
        getVal_setVal_self]
    · show getVal (rs.get ⟨i, hi'⟩) colTimeLevel = _
      rw [← hrow, getVal_setVal_self]

/-- Witness for C7: the spec's example row `time = 60, score = 100` yields
engagement 1, ratio 60/101, `perf_level` "high" and `time_level` "medium". -/
theorem engineer_features_row_values_witness :
    dfp7.columns = newCols df7.columns ∧
    ∃ hi' : 0 < dfp7.rows.length,
      getVal (dfp7.rows.get ⟨0, hi'⟩) colEngagement = some (Value.num 1) ∧
      getVal (dfp7.rows.get ⟨0, hi'⟩) colRatio = some (Value.num (60 / 101)) ∧
      getVal (dfp7.rows.get ⟨0, hi'⟩) colPerf = some (Value.str ("high")) ∧
      getVal (dfp7.rows.get ⟨0, hi'⟩) colTimeLevel = some (Value.str ("medium")) := by
  obtain ⟨hcols, hi', heng, hrat, hperf, htime, hpl, hpm, hph, hpu, htl, htm, hth, htu⟩ :=
    engineer_features_row_values df7 dfp7 engineer_features_df7 0 (by decide)
      60 100 (by decide) (by decide)
  refine ⟨hcols, hi', ?_, ?_, ?_, ?_⟩
  · rw [heng]
    norm_num
  · rw [hrat (by norm_num)]
    norm_num
  · rw [hperf, perfLevel_high 100 (by norm_num) (by norm_num)]
  · rw [htime, timeLevel_medium 60 (by norm_num) (by norm_num)]

/-- C8: on every batch that passes validation and feature engineering,
`process` returns the augmented batch together with the feature-name list
[time_spent_min, score_percent, engagement_score, time_score_ratio], with
chapter_order appended as a fifth name exactly when that column is present
in the augmented batch. -/
theorem process_feature_list (df dfp : DataFrame)
    (hv : validate_input df = Except.ok ())
    (he : engineer_features df = Except.ok dfp) :
    process df = Except.ok (dfp,
      if colChapter ∈ dfp.columns then
        [colTime, colScore, colEngagement, colRatio] ++ [colChapter]
      else [colTime, colScore, colEngagement, colRatio]) := by
  unfold process
  rw [hv, he]

/-- Witness for C8: `df8` has no `chapter_order` column, so `process`
returns exactly the four base feature names. -/
theorem process_feature_list_witness :
    process df8 = Except.ok (dfp8,
      [colTime, colScore, colEngagement, colRatio]) := by
  have h := process_feature_list df8 dfp8 rfl engineer_features_df8
  rw [h, if_neg (by decide)]
